import Mathlib

/-!
Shallow embedding of the todo application's client-side synchronization core:
`src/frontend/src/hooks/useTodos.js` and
`src/frontend/src/services/localStorage.js`, together with the relevant
validation logic of the backend todo controller.  JavaScript strings are
modelled as Lean `String`, absent (`undefined`) object fields as `Option`,
thrown exceptions as `Except`, and the browser `localStorage` as an explicit
`Storage` value threaded through the operations.
-/

namespace TodoApp

/-- JS truthiness of a possibly-absent string field: `undefined` / `null` and
the empty string are falsy, every other string is truthy. -/
def truthy : Option String → Bool
  | none => false
  | some s => !(s == "")

/-- Drop leading whitespace characters, as `String.prototype.trim` does at the
start of the string. -/
def dropLeadingWs : List Char → List Char
  | [] => []
  | c :: cs => if c.isWhitespace then dropLeadingWs cs else c :: cs

/-- Drop trailing whitespace characters. -/
def dropTrailingWs (l : List Char) : List Char :=
  (dropLeadingWs l.reverse).reverse

/-- Model of JS `text.trim()`: strip whitespace from both ends. -/
def jsTrim (s : String) : String :=
  String.mk (dropTrailingWs (dropLeadingWs s.data))

/-- A todo item as the client sees it (a JSON object).  The store-assigned
`_id` and the client-side `id` are optional string fields.  The `createdAt` /
`updatedAt` timestamps of the source are elided: they influence no control
flow in the embedded code and no claim concerns them. -/
structure Item where
  _id : Option String
  id : Option String
  text : String
  completed : Bool
deriving DecidableEq

/-- The statistics record `{ total, completed, pending }`. -/
structure Stats where
  total : Nat
  completed : Nat
  pending : Nat
deriving DecidableEq

/-- `calculateStats` from `localStorage.js`: `total` is the length,
`completed` counts the completed items, `pending = total - completed`. -/
def calculateStats (todos : List Item) : Stats :=
  { total := todos.length
    completed := (todos.filter (fun t => t.completed)).length
    pending := todos.length - (todos.filter (fun t => t.completed)).length }

/-- A JSON value stored under the todos key: either an array of items or some
other JSON value (number, object, string, ...), which `JSON.parse` happily
produces but which is not an array.  The `tag` distinguishes concrete
non-array values. -/
inductive JsonVal where
  | arr (items : List Item)
  | nonArray (tag : String)
deriving DecidableEq

/-- A JSON value stored under the stats key. -/
inductive JsonStats where
  | stat (s : Stats)
  | nonStats (tag : String)
deriving DecidableEq

/-- The raw content of one `localStorage` key: the key can be missing
(`getItem` returns `null`), hold a string `JSON.parse` throws on, or hold a
string that parses to a JSON value. -/
inductive RawCell (α : Type) where
  | missing
  | corrupt
  | val (v : α)
deriving DecidableEq

/-- The browser `localStorage` as used by `localStorage.js`: the
`todoapp_todos` and `todoapp_stats` keys. -/
structure Storage where
  todosCell : RawCell JsonVal
  statsCell : RawCell JsonStats
deriving DecidableEq

/-- The body of the `try` block of `getTodosFromStorage`:
`localStorage.getItem` followed by `JSON.parse`, which can throw. -/
def parseTodosCell : RawCell JsonVal → Except String (Option JsonVal)
  | .missing => .ok none
  | .corrupt => .error "SyntaxError: Unexpected token in JSON"
  | .val v => .ok (some v)

/-- `getTodosFromStorage`: returns the parsed value of the todos key, `[]`
when the key is missing, and `[]` from the `catch` when parsing throws.  The
parsed value is returned unchecked, so it need not be an array. -/
def getTodosFromStorage (cell : RawCell JsonVal) : JsonVal :=
  match parseTodosCell cell with
  | .ok none => .arr []
  | .ok (some v) => v
  | .error _ => .arr []

/-- The body of the `try` block of `getStatsFromStorage`. -/
def parseStatsCell : RawCell JsonStats → Except String (Option JsonStats)
  | .missing => .ok none
  | .corrupt => .error "SyntaxError: Unexpected token in JSON"
  | .val v => .ok (some v)

/-- `getStatsFromStorage`: the parsed value of the stats key, with
`{ total: 0, completed: 0, pending: 0 }` when the key is missing or parsing
throws. -/
def getStatsFromStorage (cell : RawCell JsonStats) : JsonStats :=
  match parseStatsCell cell with
  | .ok none => .stat ⟨0, 0, 0⟩
  | .ok (some v) => v
  | .error _ => .stat ⟨0, 0, 0⟩

/-- `saveTodosToStorage`: serialize the array under the todos key.  (The
source swallows `setItem` failures; the embedding models the successful
write.) -/
def saveTodosToStorage (todos : List Item) (s : Storage) : Storage :=
  { s with todosCell := .val (.arr todos) }

/-- `saveStatsToStorage`. -/
def saveStatsToStorage (st : Stats) (s : Storage) : Storage :=
  { s with statsCell := .val (.stat st) }

/-- `syncTodosWithStorage`: overwrite the todos key and the stats key with the
given list and its recomputed statistics. -/
def syncTodosWithStorage (todos : List Item) (s : Storage) : Storage :=
  saveStatsToStorage (calculateStats todos) (saveTodosToStorage todos s)

/-- `addTodoToStorage`: read the cached array, extend the new item with a
locally generated id (`local_` prefix) when its own `id` is falsy, push, and
write back list and stats.  On a cached non-array, `todos.push` throws a
`TypeError`, which the source's `catch` rethrows.  `fresh` stands for the
`Date.now()`/`Math.random()` suffix of the generated id. -/
def addTodoToStorage (todo : Item) (fresh : String) (s : Storage) :
    Except String (Item × Storage) :=
  match getTodosFromStorage s.todosCell with
  | .nonArray _ => .error "TypeError: todos.push is not a function"
  | .arr todos =>
    let newTodo : Item :=
      { todo with id := if truthy todo.id then todo.id else some ("local_" ++ fresh) }
    let todos2 := todos ++ [newTodo]
    .ok (newTodo, saveStatsToStorage (calculateStats todos2) (saveTodosToStorage todos2 s))

/-- An update payload `{ text?, completed? }`. -/
structure Patch where
  text : Option String
  completed : Option Bool
deriving DecidableEq

/-- `{ ...todos[index], ...updateData, id: todos[index].id || todos[index]._id }`:
spread the patch over the stored item and re-derive `id` from the stored
item's two identifier fields. -/
def applyPatch (p : Patch) (t : Item) : Item :=
  { t with
    text := p.text.getD t.text
    completed := p.completed.getD t.completed
    id := if truthy t.id then t.id else t._id }

/-- `findIndex` followed by assignment at the found index: update the first
element satisfying `pred`, returning the updated element and list, or `none`
when no element matches. -/
def updateFirst (pred : Item → Bool) (f : Item → Item) : List Item → Option (Item × List Item)
  | [] => none
  | t :: ts =>
    if pred t then some (f t, f t :: ts)
    else (updateFirst pred f ts).map (fun r => (r.1, t :: r.2))

/-- `updateTodoInStorage`: find the cached record whose `id` or `_id` equals
the requested id, apply the patch, write back list and stats; throw
`Todo not found in localStorage` when no record matches, and a `TypeError`
when the cached value is not an array (`findIndex` is not a function). -/
def updateTodoInStorage (id : String) (p : Patch) (s : Storage) :
    Except String (Item × Storage) :=
  match getTodosFromStorage s.todosCell with
  | .nonArray _ => .error "TypeError: todos.findIndex is not a function"
  | .arr todos =>
    match updateFirst (fun t => t.id == some id || t._id == some id) (applyPatch p) todos with
    | none => .error "Todo not found in localStorage"
    | some (u, todos2) =>
      .ok (u, saveStatsToStorage (calculateStats todos2) (saveTodosToStorage todos2 s))

/-- `deleteTodoFromStorage`: filter out records matching the id under either
identifier field; when nothing was removed, throw
`Todo not found in localStorage`. -/
def deleteTodoFromStorage (id : String) (s : Storage) : Except String Storage :=
  match getTodosFromStorage s.todosCell with
  | .nonArray _ => .error "TypeError: todos.filter is not a function"
  | .arr todos =>
    let filtered := todos.filter (fun t => !(t.id == some id) && !(t._id == some id))
    if filtered.length != todos.length then
      .ok (saveStatsToStorage (calculateStats filtered) (saveTodosToStorage filtered s))
    else .error "Todo not found in localStorage"

/-- The state owned by the `useTodos` hook: `todos`, `stats`, `error`, plus
the `localStorage` contents the hook's operations read and write.  The
`loading` flag and the externally driven `isOnline` flag are passed as
parameters instead of stored (`isOnline` is an argument of every operation
below). -/
structure CoreState where
  todos : List Item
  stats : Stats
  error : Option String
  storage : Storage
deriving DecidableEq

/-- The hook's initial state: `todos = []`,
`stats = { total: 0, completed: 0, pending: 0 }`, `error = null`, over an
arbitrary pre-existing `localStorage`. -/
def initState (storage : Storage) : CoreState :=
  { todos := [], stats := ⟨0, 0, 0⟩, error := none, storage := storage }

/-- The repeated `setTodos(prev => { const updated = ...; setStats(calculateStats(updated)); return updated })`
pattern: replace `todos` and recompute `stats` from the replacement. -/
def setTodosRecompute (updated : List Item) (st : CoreState) : CoreState :=
  { st with todos := updated, stats := calculateStats updated }

/-- `{ ...todo, id: todo._id || todo.id }`: map the store-assigned `_id` onto
`id` when `_id` is truthy. -/
def withId (t : Item) : Item :=
  { t with id := if truthy t._id then t._id else t.id }

/-- `todo.id && todo.id !== 'undefined'`: the id is truthy and not the
literal string `"undefined"`. -/
def validId (t : Item) : Bool :=
  truthy t.id && !(t.id == some "undefined")

/-- The normalization block repeated in all three branches of `loadTodos`:
map `_id` onto `id`, then keep only items with a valid id. -/
def normalizeValid (l : List Item) : List Item :=
  (l.map withId).filter validId

/-- Reading and normalizing the cached todos, as the offline and catch
branches of `loadTodos` do: on a cached non-array, `todosData.map` throws a
`TypeError`. -/
def readCacheNormalized (s : Storage) : Except String (List Item) :=
  match getTodosFromStorage s.todosCell with
  | .nonArray _ => .error "TypeError: todosData.map is not a function"
  | .arr todosData => .ok (normalizeValid todosData)

/-- The `catch` block of `loadTodos`: fall back to the cache, normalize, set
the advisory offline message.  A throw inside the `catch` block (cached
non-array) escapes `loadTodos`; the second component is the escaped
exception. -/
def loadCatch (st : CoreState) : CoreState × Option String :=
  match readCacheNormalized st.storage with
  | .ok validTodos =>
    ({ st with todos := validTodos, stats := calculateStats validTodos,
               error := some "Using offline data. Some features may be limited." }, none)
  | .error e => (st, some e)

/-- `loadTodos`: clear the error; when online, fetch (`fetch` is the outcome
of `todoAPI.getAllTodos()`, whose `ok` payload is the response's optional
`data` array), normalize, replace `todos`/`stats` and mirror the raw fetched
list into storage; a fetch failure, and a throw inside the offline branch,
run the `catch` block.  The unused `statsData` locals of the source are
elided.  Returns the new state together with the exception escaping to the
caller, if any. -/
def loadTodos (online : Bool) (fetch : Except String (Option (List Item)))
    (st : CoreState) : CoreState × Option String :=
  let st0 := { st with error := none }
  if online then
    match fetch with
    | .ok data =>
      let todosData := data.getD []
      let validTodos := normalizeValid todosData
      ({ st0 with todos := validTodos, stats := calculateStats validTodos,
                  storage := syncTodosWithStorage todosData st0.storage }, none)
    | .error _ => loadCatch st0
  else
    match readCacheNormalized st0.storage with
    | .ok validTodos =>
      ({ st0 with todos := validTodos, stats := calculateStats validTodos }, none)
    | .error _ => loadCatch st0

/-- `if (newTodo._id && !newTodo.id) newTodo.id = newTodo._id`. -/
def fixId (t : Item) : Item :=
  if truthy t._id && !(truthy t.id) then { t with id := t._id } else t

/-- `addTodo`: reject text whose trimmed form is empty; when online, use the
create response (`resp` is the outcome of `todoAPI.createTodo`), fix up its
id, throw on a record without resolvable id, append and recompute, then
mirror into storage (a storage throw after the append only sets the error);
when offline, create the item in storage first, then append and recompute. -/
def addTodo (online : Bool) (resp : Except String Item) (fresh : String)
    (text : String) (st : CoreState) : CoreState :=
  if jsTrim text == "" then
    { st with error := some "Todo text cannot be empty" }
  else
    let st0 := { st with error := none }
    if online then
      match resp with
      | .error _ => { st0 with error := some "Failed to add todo. Please try again." }
      | .ok respTodo =>
        let newTodo := fixId respTodo
        if !(truthy newTodo.id) then
          { st0 with error := some "Failed to add todo. Please try again." }
        else
          let st1 := setTodosRecompute (st0.todos ++ [newTodo]) st0
          match addTodoToStorage newTodo fresh st1.storage with
          | .ok r => { st1 with storage := r.2 }
          | .error _ => { st1 with error := some "Failed to add todo. Please try again." }
    else
      match addTodoToStorage { _id := none, id := none, text := jsTrim text, completed := false }
              fresh st0.storage with
      | .error _ => { st0 with error := some "Failed to add todo. Please try again." }
      | .ok (created, storage2) =>
        let newTodo := fixId created
        if !(truthy newTodo.id) then
          { st0 with storage := storage2,
                     error := some "Failed to add todo. Please try again." }
        else
          { setTodosRecompute (st0.todos ++ [newTodo]) st0 with storage := storage2 }

/-- `updateTodo`: when online, use the update response, fix up its id,
replace the matching item and recompute, then try the storage update and on
its not-found/TypeError failure add the item to storage instead (whose own
throw only sets the error); when offline, update storage first and reflect
the patched record into `todos`. -/
def updateTodo (online : Bool) (resp : Except String Item) (fresh : String)
    (id : String) (p : Patch) (st : CoreState) : CoreState :=
  let st0 := { st with error := none }
  if online then
    match resp with
    | .error _ => { st0 with error := some "Failed to update todo. Please try again." }
    | .ok respTodo =>
      let updatedTodo := fixId respTodo
      let st1 := setTodosRecompute
        (st0.todos.map (fun t => if t.id == some id then updatedTodo else t)) st0
      match updateTodoInStorage id p st1.storage with
      | .ok r => { st1 with storage := r.2 }
      | .error _ =>
        match addTodoToStorage updatedTodo fresh st1.storage with
        | .ok r => { st1 with storage := r.2 }
        | .error _ => { st1 with error := some "Failed to update todo. Please try again." }
  else
    match updateTodoInStorage id p st0.storage with
    | .error _ => { st0 with error := some "Failed to update todo. Please try again." }
    | .ok (updatedTodo, storage2) =>
      { setTodosRecompute
          (st0.todos.map (fun t => if t.id == some id then updatedTodo else t)) st0 with
        storage := storage2 }

/-- `toggleTodoComplete`: when online, use the toggle response, replace the
matching item and recompute, then mirror the flip into storage for an item
found in the pre-update `todos` (falling back to adding the response record);
when offline, look the item up in `todos` and, only when found, flip its
last known `completed` value through `updateTodoInStorage`.  An id absent
from `todos` is silently ignored offline. -/
def toggleTodoComplete (online : Bool) (resp : Except String Item) (fresh : String)
    (id : String) (st : CoreState) : CoreState :=
  let st0 := { st with error := none }
  if online then
    match resp with
    | .error _ => { st0 with error := some "Failed to toggle todo. Please try again." }
    | .ok respTodo =>
      let updatedTodo := fixId respTodo
      let st1 := setTodosRecompute
        (st0.todos.map (fun t => if t.id == some id then updatedTodo else t)) st0
      match st0.todos.find? (fun t => t.id == some id) with
      | none => st1
      | some todo =>
        match updateTodoInStorage id { text := none, completed := some (!todo.completed) }
                st1.storage with
        | .ok r => { st1 with storage := r.2 }
        | .error _ =>
          match addTodoToStorage updatedTodo fresh st1.storage with
          | .ok r => { st1 with storage := r.2 }
          | .error _ => { st1 with error := some "Failed to toggle todo. Please try again." }
  else
    match st0.todos.find? (fun t => t.id == some id) with
    | none => st0
    | some todo =>
      match updateTodoInStorage id { text := none, completed := some (!todo.completed) }
              st0.storage with
      | .error _ => { st0 with error := some "Failed to toggle todo. Please try again." }
      | .ok (updatedTodo, storage2) =>
        { setTodosRecompute
            (st0.todos.map (fun t => if t.id == some id then updatedTodo else t)) st0 with
          storage := storage2 }

/-- `deleteTodo`: when online, use the delete response, filter `todos` and
recompute, then try the storage delete ignoring its failure; when offline,
delete from storage first (a failure sets the error) and then filter
`todos`. -/
def deleteTodo (online : Bool) (resp : Except String Unit) (id : String)
    (st : CoreState) : CoreState :=
  let st0 := { st with error := none }
  if online then
    match resp with
    | .error _ => { st0 with error := some "Failed to delete todo. Please try again." }
    | .ok _ =>
      let st1 := setTodosRecompute (st0.todos.filter (fun t => !(t.id == some id))) st0
      match deleteTodoFromStorage id st1.storage with
      | .ok storage2 => { st1 with storage := storage2 }
      | .error _ => st1
  else
    match deleteTodoFromStorage id st0.storage with
    | .error _ => { st0 with error := some "Failed to delete todo. Please try again." }
    | .ok storage2 =>
      { setTodosRecompute (st0.todos.filter (fun t => !(t.id == some id))) st0 with
        storage := storage2 }

/-- `deleteCompletedTodos`: when online, use the bulk-delete response, filter
`todos` to the non-completed ones and recompute, and overwrite the storage
mirror with the retained set and its stats; offline, same filtering and
mirroring without a remote call. -/
def deleteCompletedTodos (online : Bool) (resp : Except String Nat)
    (st : CoreState) : CoreState :=
  let st0 := { st with error := none }
  if online then
    match resp with
    | .error _ =>
      { st0 with error := some "Failed to delete completed todos. Please try again." }
    | .ok _ =>
      let st1 := setTodosRecompute (st0.todos.filter (fun t => !t.completed)) st0
      let remainingTodos := st0.todos.filter (fun t => !t.completed)
      { st1 with storage := saveStatsToStorage (calculateStats remainingTodos)
                              (saveTodosToStorage remainingTodos st1.storage) }
  else
    let remainingTodos := st0.todos.filter (fun t => !t.completed)
    let storage2 := saveStatsToStorage (calculateStats remainingTodos)
                      (saveTodosToStorage remainingTodos st0.storage)
    { st0 with todos := remainingTodos, stats := calculateStats remainingTodos,
               storage := storage2 }

/-- `clearError`. -/
def clearError (st : CoreState) : CoreState :=
  { st with error := none }

/-- Backend `createTodo` (todo controller): request-body validation and the
shape of the created record.  The persistence layer is abstracted: `newId` is
the store-assigned object id of the saved document.  The client sends
`{ text: text.trim() }`, so `text` here is the client-trimmed text. -/
def serverCreateTodo (text : String) (newId : String) : Except String Item :=
  if jsTrim text == "" then
    .error "Bad Request: Todo text is required and cannot be empty"
  else if 500 < text.length then
    .error "Bad Request: Todo text cannot exceed 500 characters"
  else .ok { _id := some newId, id := none, text := jsTrim text, completed := false }

/-- Backend `updateTodo`: id-format check, per-field validation, and the
update applied to the record the store holds for the id (`dbResult`,
abstracting `findByIdAndUpdate`). -/
def serverUpdateTodo (validFormat : Bool) (dbResult : Option Item) (p : Patch) :
    Except String Item :=
  if !validFormat then .error "Bad Request: Invalid todo ID format"
  else
    match p.text with
    | some t =>
      if jsTrim t == "" then .error "Bad Request: Todo text cannot be empty"
      else if 500 < t.length then .error "Bad Request: Todo text cannot exceed 500 characters"
      else
        match dbResult with
        | none => .error "Not Found: Todo not found"
        | some r => .ok { r with text := jsTrim t, completed := p.completed.getD r.completed }
    | none =>
      match p.completed with
      | none => .error "Bad Request: No valid fields provided for update"
      | some c =>
        match dbResult with
        | none => .error "Not Found: Todo not found"
        | some r => .ok { r with completed := c }

/-- One invocation of a core operation, carrying the environment it observes:
the connectivity flag, the remote response, and the generated-id suffix. -/
inductive Op where
  | load (online : Bool) (fetch : Except String (Option (List Item)))
  | add (online : Bool) (resp : Except String Item) (fresh text : String)
  | update (online : Bool) (resp : Except String Item) (fresh id : String) (p : Patch)
  | toggle (online : Bool) (resp : Except String Item) (fresh id : String)
  | remove (online : Bool) (resp : Except String Unit) (id : String)
  | removeCompleted (online : Bool) (resp : Except String Nat)
  | clearErr

/-- The state transition of one operation.  For `load`, the state component
reflects the mutations applied before any escaping exception. -/
def step (op : Op) (st : CoreState) : CoreState :=
  match op with
  | .load online fetch => (loadTodos online fetch st).1
  | .add online resp fresh text => addTodo online resp fresh text st
  | .update online resp fresh id p => updateTodo online resp fresh id p st
  | .toggle online resp fresh id => toggleTodoComplete online resp fresh id st
  | .remove online resp id => deleteTodo online resp id st
  | .removeCompleted online resp => deleteCompletedTodos online resp st
  | .clearErr => clearError st

/-- Run a sequence of operations from a state. -/
def run (ops : List Op) (st : CoreState) : CoreState :=
  ops.foldl (fun s op => step op s) st

/-- The consistency property of C1: `stats` is exactly the recomputation of
`calculateStats` over the current `todos`. -/
def StatsOK (st : CoreState) : Prop :=
  st.stats = calculateStats st.todos

/-- Is the JSON value an array? -/
def isArr : JsonVal → Bool
  | .arr _ => true
  | .nonArray _ => false

/-- Is the JSON value a statistics record? -/
def isStatRec : JsonStats → Bool
  | .stat _ => true
  | .nonStats _ => false

/-- A 501-character text, exceeding the 500-character limit. -/
def longText : String :=
  String.mk (List.replicate 501 'a')

/-- A sample item with id `"a"`. -/
def itemA : Item :=
  { _id := none, id := some "a", text := "hello", completed := false }

/-- A sample state holding `itemA` both in `todos` and in the cache. -/
def stA : CoreState :=
  { todos := [itemA], stats := calculateStats [itemA], error := none,
    storage := ⟨RawCell.val (JsonVal.arr [itemA]), RawCell.missing⟩ }

/-- `itemA` after the empty-text patch. -/
def uA : Item :=
  { _id := none, id := some "a", text := "", completed := false }

/-- The storage resulting from patching `itemA` to `uA` in `stA`. -/
def sA : Storage :=
  ⟨RawCell.val (JsonVal.arr [uA]), RawCell.val (JsonStats.stat ⟨1, 0, 1⟩)⟩

/-- `itemA` after the completion flip. -/
def uT : Item :=
  { _id := none, id := some "a", text := "hello", completed := true }

/-- The storage resulting from flipping `itemA` to `uT` in `stA`. -/
def sT : Storage :=
  ⟨RawCell.val (JsonVal.arr [uT]), RawCell.val (JsonStats.stat ⟨1, 1, 0⟩)⟩

/-! ### Lemmas about the trim model -/

theorem dropLeadingWs_head_not_ws (l : List Char) (c : Char) (cs : List Char)
    (h : dropLeadingWs l = c :: cs) : c.isWhitespace = false := by
  induction l with
  | nil => simp [dropLeadingWs] at h
  | cons a as ih =>
    cases hb : a.isWhitespace with
    | true => simp only [dropLeadingWs, hb, if_true] at h; exact ih h
    | false =>
      simp only [dropLeadingWs, hb, Bool.false_eq_true, if_false] at h
      obtain ⟨h1, h2⟩ := List.cons.injEq .. ▸ h
      exact h1 ▸ hb

theorem dropLeadingWs_cons_not_ws (c : Char) (cs : List Char) (h : c.isWhitespace = false) :
    dropLeadingWs (c :: cs) = c :: cs := by
  simp [dropLeadingWs, h]

theorem dropLeadingWs_idem (l : List Char) :
    dropLeadingWs (dropLeadingWs l) = dropLeadingWs l := by
  cases hl : dropLeadingWs l with
  | nil => rfl
  | cons c cs => exact dropLeadingWs_cons_not_ws c cs (dropLeadingWs_head_not_ws l c cs hl)

theorem dropLeadingWs_suffix (l : List Char) : ∃ u, u ++ dropLeadingWs l = l := by
  induction l with
  | nil => exact ⟨[], rfl⟩
  | cons a as ih =>
    cases hb : a.isWhitespace with
    | false => exact ⟨[], by simp [dropLeadingWs, hb]⟩
    | true =>
      obtain ⟨u, hu⟩ := ih
      exact ⟨a :: u, by simp [dropLeadingWs, hb, hu]⟩

theorem dropLeading_dropTrailing_fix (d : List Char) :
    dropLeadingWs (dropTrailingWs (dropLeadingWs d)) = dropTrailingWs (dropLeadingWs d) := by
  cases hb : dropTrailingWs (dropLeadingWs d) with
  | nil => rfl
  | cons x xs =>
    apply dropLeadingWs_cons_not_ws
    obtain ⟨u, hu⟩ := dropLeadingWs_suffix (dropLeadingWs d).reverse
    have ha : dropLeadingWs d = dropTrailingWs (dropLeadingWs d) ++ u.reverse := by
      have h2 := congrArg List.reverse hu
      simpa [dropTrailingWs] using h2.symm
    rw [hb] at ha
    exact dropLeadingWs_head_not_ws d x (xs ++ u.reverse) (by simpa using ha)

theorem dropTrailingWs_idem_after (d : List Char) :
    dropTrailingWs (dropTrailingWs (dropLeadingWs d)) = dropTrailingWs (dropLeadingWs d) := by
  show dropTrailingWs ((dropLeadingWs (dropLeadingWs d).reverse).reverse) = _
  unfold dropTrailingWs
  rw [List.reverse_reverse, dropLeadingWs_idem]

theorem jsTrim_idem (s : String) : jsTrim (jsTrim s) = jsTrim s := by
  show String.mk (dropTrailingWs (dropLeadingWs (dropTrailingWs (dropLeadingWs s.data)))) = _
  rw [dropLeading_dropTrailing_fix, dropTrailingWs_idem_after]
  rfl

theorem jsTrim_ne_empty_of_long (s : String) (h : 500 < (jsTrim s).length) :
    (jsTrim s == "") = false := by
  cases hb : jsTrim s == "" with
  | false => rfl
  | true =>
    rw [show jsTrim s = "" from eq_of_beq hb] at h
    simp at h

/-! ### The statistics invariant (C1) -/

theorem calculateStats_total (l : List Item) :
    (calculateStats l).total = (calculateStats l).completed + (calculateStats l).pending := by
  have hle := List.length_filter_le (fun t => t.completed) l
  simp only [calculateStats]
  omega

theorem statsOK_init (storage : Storage) : StatsOK (initState storage) := rfl

theorem statsOK_loadTodos (online : Bool) (fetch : Except String (Option (List Item)))
    (st : CoreState) (h : StatsOK st) : StatsOK (loadTodos online fetch st).1 := by
  unfold loadTodos loadCatch
  dsimp only
  repeat' (first | rfl | exact h | split)

theorem statsOK_addTodo (online : Bool) (resp : Except String Item) (fresh text : String)
    (st : CoreState) (h : StatsOK st) : StatsOK (addTodo online resp fresh text st) := by
  unfold addTodo
  dsimp only
  repeat' (first | rfl | exact h | split)

theorem statsOK_updateTodo (online : Bool) (resp : Except String Item) (fresh id : String)
    (p : Patch) (st : CoreState) (h : StatsOK st) :
    StatsOK (updateTodo online resp fresh id p st) := by
  unfold updateTodo
  dsimp only
  repeat' (first | rfl | exact h | split)

theorem statsOK_toggle (online : Bool) (resp : Except String Item) (fresh id : String)
    (st : CoreState) (h : StatsOK st) :
    StatsOK (toggleTodoComplete online resp fresh id st) := by
  unfold toggleTodoComplete
  dsimp only
  repeat' (first | rfl | exact h | split)

theorem statsOK_deleteTodo (online : Bool) (resp : Except String Unit) (id : String)
    (st : CoreState) (h : StatsOK st) : StatsOK (deleteTodo online resp id st) := by
  unfold deleteTodo
  dsimp only
  repeat' (first | rfl | exact h | split)

theorem statsOK_deleteCompleted (online : Bool) (resp : Except String Nat)
    (st : CoreState) (h : StatsOK st) : StatsOK (deleteCompletedTodos online resp st) := by
  unfold deleteCompletedTodos
  dsimp only
  repeat' (first | rfl | exact h | split)

theorem statsOK_step (op : Op) (st : CoreState) (h : StatsOK st) : StatsOK (step op st) := by
  cases op with
  | load online fetch => exact statsOK_loadTodos online fetch st h
  | add online resp fresh text => exact statsOK_addTodo online resp fresh text st h
  | update online resp fresh id p => exact statsOK_updateTodo online resp fresh id p st h
  | toggle online resp fresh id => exact statsOK_toggle online resp fresh id st h
  | remove online resp id => exact statsOK_deleteTodo online resp id st h
  | removeCompleted online resp => exact statsOK_deleteCompleted online resp st h
  | clearErr => exact h

theorem statsOK_run (ops : List Op) (st : CoreState) (h : StatsOK st) : StatsOK (run ops st) := by
  induction ops generalizing st with
  | nil => exact h
  | cons op ops ih => exact ih (step op st) (statsOK_step op st h)

/-- C1: for every sequence of core operations (load, add, update,
toggleComplete, remove, removeCompleted) run from the initial state over an
arbitrary pre-existing cache, the resulting statistics are exactly the
recomputation of `calculateStats` over the current items list (never
incrementally patched), and they satisfy `total = completed + pending`. -/
theorem stats_invariant_all_ops (ops : List Op) (storage : Storage) :
    (run ops (initState storage)).stats = calculateStats (run ops (initState storage)).todos ∧
    (run ops (initState storage)).stats.total =
      (run ops (initState storage)).stats.completed +
        (run ops (initState storage)).stats.pending := by
  have h : StatsOK (run ops (initState storage)) :=
    statsOK_run ops (initState storage) (statsOK_init storage)
  refine ⟨h, ?_⟩
  rw [show (run ops (initState storage)).stats = _ from h]
  exact calculateStats_total _

/-! ### The load postcondition (C2, C3) -/

theorem readCacheNormalized_ok (s : Storage) (l : List Item)
    (h : readCacheNormalized s = .ok l) : ∃ td, l = normalizeValid td := by
  unfold readCacheNormalized at h
  split at h
  · exact absurd h (by simp)
  · next td heq =>
    injection h with h2
    exact ⟨td, h2.symm⟩

theorem mem_normalizeValid (l : List Item) (t : Item) (h : t ∈ normalizeValid l) :
    truthy t.id = true ∧ t.id ≠ some "undefined" := by
  unfold normalizeValid at h
  have hv := (List.mem_filter.mp h).2
  unfold validId at hv
  rw [Bool.and_eq_true] at hv
  obtain ⟨h1, h2⟩ := hv
  refine ⟨h1, ?_⟩
  intro hc
  rw [hc] at h2
  simp at h2

theorem loadTodos_cases (online : Bool) (fetch : Except String (Option (List Item)))
    (st : CoreState) :
    (∃ src, (loadTodos online fetch st).1.todos = normalizeValid src ∧
      (loadTodos online fetch st).1.stats = calculateStats (normalizeValid src)) ∨
    (loadTodos online fetch st).2 ≠ none := by
  unfold loadTodos loadCatch
  dsimp only
  split
  · split
    · next d => exact Or.inl ⟨d.getD [], rfl, rfl⟩
    · split
      · next x l heq =>
        obtain ⟨td, rfl⟩ := readCacheNormalized_ok _ l heq
        exact Or.inl ⟨td, rfl, rfl⟩
      · exact Or.inr (by simp)
  · split
    · next x l heq =>
      obtain ⟨td, rfl⟩ := readCacheNormalized_ok _ l heq
      exact Or.inl ⟨td, rfl, rfl⟩
    · dsimp only
      exact Or.inr (by simp)

/-- C2: whenever `load()` returns (no exception escapes), every exposed item
has a truthy `id` that is not the literal string `"undefined"` (the `_id`
field having been mapped onto `id` and unresolved entries dropped by
`normalizeValid`), and `stats` equals `calculateStats` of that filtered items
list. -/
theorem load_postcondition (online : Bool) (fetch : Except String (Option (List Item)))
    (st : CoreState) (h : (loadTodos online fetch st).2 = none) :
    (∀ t ∈ (loadTodos online fetch st).1.todos,
        truthy t.id = true ∧ t.id ≠ some "undefined") ∧
    (∃ src, (loadTodos online fetch st).1.todos = normalizeValid src) ∧
    (loadTodos online fetch st).1.stats =
      calculateStats (loadTodos online fetch st).1.todos := by
  obtain hcase | hthrow := loadTodos_cases online fetch st
  · obtain ⟨src, htd, hst⟩ := hcase
    refine ⟨?_, ⟨src, htd⟩, ?_⟩
    · intro t ht
      rw [htd] at ht
      exact mem_normalizeValid src t ht
    · rw [htd, hst]
  · exact absurd h hthrow

theorem load_postcondition_witness :
    (loadTodos true (Except.ok (some [⟨some "m1", none, "z", false⟩]))
        (initState ⟨RawCell.missing, RawCell.missing⟩)).2 = none ∧
    ∀ t ∈ (loadTodos true (Except.ok (some [⟨some "m1", none, "z", false⟩]))
        (initState ⟨RawCell.missing, RawCell.missing⟩)).1.todos,
      truthy t.id = true ∧ t.id ≠ some "undefined" :=
  ⟨by decide,
   (load_postcondition true (Except.ok (some [⟨some "m1", none, "z", false⟩]))
     (initState ⟨RawCell.missing, RawCell.missing⟩) (by decide)).1⟩

/-- C3 counterexample: with `online = false` over an empty cache, `load()`
returns without throwing but leaves `lastError` cleared (`null`); it does not
set the advisory offline-mode message the claim requires on the offline
path. -/
theorem load_offline_no_advisory_counterexample :
    (loadTodos false (Except.ok none) (initState ⟨RawCell.missing, RawCell.missing⟩)).2 = none ∧
    (loadTodos false (Except.ok none) (initState ⟨RawCell.missing, RawCell.missing⟩)).1.error
      = none ∧
    (loadTodos false (Except.ok none) (initState ⟨RawCell.missing, RawCell.missing⟩)).1.error
      ≠ some "Using offline data. Some features may be limited." :=
  ⟨by decide, by decide, by decide⟩

/-- C3 amended: assuming the cached todos value reads as an array: when the
remote fetch fails, `load()` falls back to the cache, normalizes identically
to the online path, sets `lastError` to the advisory offline-mode message and
does not throw; when `online` is false, `load()` reads and normalizes from
the cache identically and does not throw, but leaves `lastError` cleared
(`null`) instead of setting the advisory message. -/
theorem load_degraded_amended (e : String) (fetch : Except String (Option (List Item)))
    (st : CoreState) (l : List Item)
    (harr : getTodosFromStorage st.storage.todosCell = JsonVal.arr l) :
    (loadTodos true (Except.error e) st).1.todos = normalizeValid l ∧
    (loadTodos true (Except.error e) st).1.error =
      some "Using offline data. Some features may be limited." ∧
    (loadTodos true (Except.error e) st).2 = none ∧
    (loadTodos false fetch st).1.todos = normalizeValid l ∧
    (loadTodos false fetch st).1.error = none ∧
    (loadTodos false fetch st).2 = none := by
  have hrc : readCacheNormalized st.storage = .ok (normalizeValid l) := by
    unfold readCacheNormalized
    rw [harr]
  unfold loadTodos loadCatch
  dsimp only
  rw [hrc]
  exact ⟨rfl, rfl, rfl, rfl, rfl, rfl⟩

theorem load_degraded_amended_witness :
    getTodosFromStorage (initState ⟨RawCell.missing, RawCell.missing⟩).storage.todosCell
      = JsonVal.arr [] ∧
    (loadTodos true (Except.error "Network Error: Unable to connect to server")
        (initState ⟨RawCell.missing, RawCell.missing⟩)).1.error =
      some "Using offline data. Some features may be limited." :=
  ⟨by decide,
   (load_degraded_amended "Network Error: Unable to connect to server" (Except.ok none)
     (initState ⟨RawCell.missing, RawCell.missing⟩) [] (by decide)).2.1⟩

/-! ### Empty-text validation on add (C4) -/

/-- C4: in both online and offline modes, adding text whose trimmed form is
empty fails with the empty-text validation message and performs no mutation:
the state is the old state with only the error field set, so items, stats
and the local cache are unchanged. -/
theorem add_empty_text_no_mutation (online : Bool) (resp : Except String Item)
    (fresh text : String) (st : CoreState) (h : jsTrim text = "") :
    addTodo online resp fresh text st =
      { st with error := some "Todo text cannot be empty" } := by
  unfold addTodo
  rw [h]
  rfl

theorem add_empty_text_no_mutation_witness :
    jsTrim "   " = "" ∧
    addTodo true (Except.error "e") "f" "   " (initState ⟨RawCell.missing, RawCell.missing⟩) =
      { initState ⟨RawCell.missing, RawCell.missing⟩ with
        error := some "Todo text cannot be empty" } :=
  ⟨by decide, add_empty_text_no_mutation true (Except.error "e") "f" "   "
    (initState ⟨RawCell.missing, RawCell.missing⟩) (by decide)⟩

/-! ### Length validation on add (C5) -/

theorem truthy_local (fresh : String) : truthy (some ("local_" ++ fresh)) = true := by
  unfold truthy
  have hne : "local_" ++ fresh ≠ "" := by
    intro hc
    have hd := congrArg String.data hc
    simp [String.data_append] at hd
  simp [hne]

set_option maxRecDepth 4096 in
/-- C5 counterexample: offline, adding a 501-character text undergoes no
length validation: the item is appended to `items` and no error is set, so
the add does not fail with a validation error. -/
theorem add_long_text_counterexample :
    500 < longText.length ∧
    (addTodo false (Except.error "Network Error: Unable to connect to server") "f1" longText
      (initState ⟨RawCell.missing, RawCell.missing⟩)).todos =
      [{ _id := none, id := some "local_f1", text := longText, completed := false }] ∧
    (addTodo false (Except.error "Network Error: Unable to connect to server") "f1" longText
      (initState ⟨RawCell.missing, RawCell.missing⟩)).error = none :=
  ⟨by decide, by decide, by decide⟩

/-- C5 amended: the length limit is enforced only server-side: online, adding
text whose trimmed form exceeds 500 characters fails (the backend rejects the
request, the client surfaces the advisory add-failure message) and nothing is
appended; offline, no length validation is performed and the item is appended
with a locally generated id and no error. -/
theorem add_long_text_amended (text newId fresh : String) (r : Except String Item)
    (st : CoreState) (l : List Item) (hlong : 500 < (jsTrim text).length)
    (harr : getTodosFromStorage st.storage.todosCell = JsonVal.arr l) :
    addTodo true (serverCreateTodo (jsTrim text) newId) fresh text st =
      { st with error := some "Failed to add todo. Please try again." } ∧
    (addTodo false r fresh text st).todos =
      st.todos ++ [{ _id := none, id := some ("local_" ++ fresh), text := jsTrim text,
                     completed := false }] ∧
    (addTodo false r fresh text st).error = none := by
  have hne : (jsTrim text == "") = false := jsTrim_ne_empty_of_long text hlong
  have hne2 : "local_" ++ fresh ≠ "" := by
    intro hc
    have hd : ("local_").data ++ fresh.data = [] := by
      have h0 := congrArg String.data hc
      rw [String.data_append] at h0
      exact h0.trans (by decide)
    exact absurd (List.append_eq_nil.mp hd).1 (by decide)
  have hserver : serverCreateTodo (jsTrim text) newId =
      .error "Bad Request: Todo text cannot exceed 500 characters" := by
    unfold serverCreateTodo
    rw [jsTrim_idem, hne]
    simp [hlong]
  have hstore : addTodoToStorage
      { _id := none, id := none, text := jsTrim text, completed := false } fresh st.storage =
      .ok ({ _id := none, id := some ("local_" ++ fresh), text := jsTrim text,
             completed := false },
           saveStatsToStorage
             (calculateStats (l ++ [{ _id := none, id := some ("local_" ++ fresh),
                                      text := jsTrim text, completed := false }]))
             (saveTodosToStorage
               (l ++ [{ _id := none, id := some ("local_" ++ fresh),
                        text := jsTrim text, completed := false }]) st.storage)) := by
    unfold addTodoToStorage
    rw [harr]
    rfl
  refine ⟨?_, ?_, ?_⟩
  · unfold addTodo
    dsimp only
    rw [hne, hserver]
    rfl
  · unfold addTodo
    dsimp only
    rw [hne, hstore]
    simp [fixId, truthy, truthy_local, hne2, setTodosRecompute]
  · unfold addTodo
    dsimp only
    rw [hne, hstore]
    simp [fixId, truthy, truthy_local, hne2, setTodosRecompute]

set_option maxRecDepth 4096 in
theorem add_long_text_amended_witness :
    500 < (jsTrim longText).length ∧
    getTodosFromStorage (initState ⟨RawCell.missing, RawCell.missing⟩).storage.todosCell
      = JsonVal.arr [] ∧
    (addTodo false (Except.error "net") "f1" longText
      (initState ⟨RawCell.missing, RawCell.missing⟩)).todos =
      (initState ⟨RawCell.missing, RawCell.missing⟩).todos ++
        [{ _id := none, id := some ("local_" ++ "f1"), text := jsTrim longText,
           completed := false }] :=
  ⟨by decide, by decide,
   (add_long_text_amended longText "m9" "f1" (Except.error "net")
     (initState ⟨RawCell.missing, RawCell.missing⟩) [] (by decide) (by decide)).2.1⟩

/-! ### Update with an empty-text patch (C6) -/

theorem updateFirst_shape (pred : Item → Bool) (f : Item → Item) (l : List Item)
    (u : Item) (l2 : List Item) (h : updateFirst pred f l = some (u, l2)) :
    ∃ t, u = f t ∧ pred t = true := by
  induction l generalizing l2 with
  | nil => simp [updateFirst] at h
  | cons a as ih =>
    unfold updateFirst at h
    split at h
    · next hp =>
      injection h with h2
      have hu : f a = u := congrArg Prod.fst h2
      exact ⟨a, hu.symm, hp⟩
    · cases hrec : updateFirst pred f as with
      | none => rw [hrec] at h; simp at h
      | some r =>
        obtain ⟨r1, r2⟩ := r
        rw [hrec] at h
        simp only [Option.map_some'] at h
        injection h with h2
        have hu : r1 = u := congrArg Prod.fst h2
        rw [hu] at hrec
        obtain ⟨t, ht, hpt⟩ := ih r2 hrec
        exact ⟨t, ht, hpt⟩

theorem updateTodoInStorage_ok (id : String) (p : Patch) (s : Storage) (u : Item)
    (s2 : Storage) (h : updateTodoInStorage id p s = .ok (u, s2)) :
    ∃ t, u = applyPatch p t := by
  unfold updateTodoInStorage at h
  split at h
  · simp at h
  · split at h
    · simp at h
    · next u2 l2 heq =>
      injection h with h2
      have hu : u2 = u := congrArg Prod.fst h2
      obtain ⟨t, ht, -⟩ := updateFirst_shape _ _ _ u2 l2 heq
      exact ⟨t, hu ▸ ht⟩

/-- C6 counterexample: offline, `update(id, {text: ""})` on a state whose
cache holds a record with that id performs no validation: the empty-text
patch is applied to the cache and to `items`, and no error is set, so the
update does not fail and `items` does not stay unchanged. -/
theorem update_empty_text_counterexample :
    (updateTodo false (Except.error "x") "f" "a" ⟨some "", none⟩ stA).todos = [uA] ∧
    (updateTodo false (Except.error "x") "f" "a" ⟨some "", none⟩ stA).error = none ∧
    (updateTodo false (Except.error "x") "f" "a" ⟨some "", none⟩ stA).storage.todosCell =
      RawCell.val (JsonVal.arr [uA]) ∧
    (updateTodo false (Except.error "x") "f" "a" ⟨some "", none⟩ stA).todos ≠ stA.todos :=
  ⟨by decide, by decide, by decide, by decide⟩

/-- C6 amended: online, `update(id, {text: ""})` is rejected by the server's
validation and the client surfaces the advisory update-failure message with
`items` unchanged; offline, no validation is performed: when a cached record
matches the id, the empty-text patch is applied (the patched record's text is
empty), persisted, and reflected into `items`; only when no cached record
matches does the operation fail, leaving `items` unchanged. -/
theorem update_empty_text_amended (vf : Bool) (db : Option Item) (r : Except String Item)
    (fresh id : String) (st : CoreState) :
    (updateTodo true (serverUpdateTodo vf db ⟨some "", none⟩) fresh id ⟨some "", none⟩ st =
      { st with error := some "Failed to update todo. Please try again." }) ∧
    (∀ u s2, updateTodoInStorage id ⟨some "", none⟩ st.storage = .ok (u, s2) →
      u.text = "" ∧
      updateTodo false r fresh id ⟨some "", none⟩ st =
        { st with
          todos := st.todos.map (fun t => if t.id == some id then u else t),
          stats := calculateStats (st.todos.map (fun t => if t.id == some id then u else t)),
          storage := s2, error := none }) ∧
    (∀ e, updateTodoInStorage id ⟨some "", none⟩ st.storage = .error e →
      updateTodo false r fresh id ⟨some "", none⟩ st =
        { st with error := some "Failed to update todo. Please try again." }) := by
  refine ⟨?_, ?_, ?_⟩
  · unfold updateTodo serverUpdateTodo
    cases vf <;> rfl
  · intro u s2 hok
    obtain ⟨t, ht⟩ := updateTodoInStorage_ok id ⟨some "", none⟩ st.storage u s2 hok
    refine ⟨by rw [ht]; rfl, ?_⟩
    unfold updateTodo
    dsimp only
    rw [hok]
    rfl
  · intro e herr
    unfold updateTodo
    dsimp only
    rw [herr]
    rfl

theorem update_empty_text_amended_witness :
    updateTodoInStorage "a" ⟨some "", none⟩ stA.storage = Except.ok (uA, sA) ∧
    (uA.text = "" ∧
     updateTodo false (Except.error "x") "f" "a" ⟨some "", none⟩ stA =
       { stA with
         todos := stA.todos.map (fun t => if t.id == some "a" then uA else t),
         stats := calculateStats (stA.todos.map (fun t => if t.id == some "a" then uA else t)),
         storage := sA, error := none }) :=
  ⟨by rfl,
   (update_empty_text_amended false none (Except.error "x") "f" "a" stA).2.1 uA sA (by rfl)⟩

/-! ### Offline toggle of an unknown id (C7) -/

/-- C7 counterexample: offline, `toggleComplete` on an id that is neither in
`items` nor matched by any cached record does not fail with any error: the
state is returned unchanged and `lastError` is still `null`, not a
NotFoundError. -/
theorem toggle_unknown_offline_counterexample :
    (initState ⟨RawCell.missing, RawCell.missing⟩).todos.find?
        (fun t => t.id == some "nope") = none ∧
    getTodosFromStorage (initState ⟨RawCell.missing, RawCell.missing⟩).storage.todosCell
      = JsonVal.arr [] ∧
    toggleTodoComplete false (Except.error "x") "f" "nope"
        (initState ⟨RawCell.missing, RawCell.missing⟩) =
      initState ⟨RawCell.missing, RawCell.missing⟩ ∧
    (toggleTodoComplete false (Except.error "x") "f" "nope"
        (initState ⟨RawCell.missing, RawCell.missing⟩)).error = none :=
  ⟨by decide, by decide, by decide, by decide⟩

/-- C7 amended: offline, an id not present in `items` is silently ignored
(the state is unchanged apart from the cleared error; no NotFoundError); for
an id present in `items` the flip is computed locally from the item's last
known `completed` value: when the cache update finds no matching record the
advisory toggle-failure message is set and `items` is unchanged, otherwise
the patched record, whose `completed` is the negation of the last known
value, replaces the matching items and is persisted. -/
theorem toggle_offline_amended (r : Except String Item) (fresh id : String) (st : CoreState) :
    (st.todos.find? (fun t => t.id == some id) = none →
      toggleTodoComplete false r fresh id st = { st with error := none }) ∧
    (∀ todo, st.todos.find? (fun t => t.id == some id) = some todo →
      (∀ e, updateTodoInStorage id ⟨none, some (!todo.completed)⟩ st.storage = .error e →
        toggleTodoComplete false r fresh id st =
          { st with error := some "Failed to toggle todo. Please try again." }) ∧
      (∀ u s2, updateTodoInStorage id ⟨none, some (!todo.completed)⟩ st.storage = .ok (u, s2) →
        u.completed = !todo.completed ∧
        toggleTodoComplete false r fresh id st =
          { st with
            todos := st.todos.map (fun t => if t.id == some id then u else t),
            stats := calculateStats (st.todos.map (fun t => if t.id == some id then u else t)),
            storage := s2, error := none })) := by
  refine ⟨?_, ?_⟩
  · intro hnone
    unfold toggleTodoComplete
    dsimp only
    rw [hnone]
    rfl
  · intro todo hfind
    refine ⟨?_, ?_⟩
    · intro e herr
      unfold toggleTodoComplete
      dsimp only
      rw [hfind]
      dsimp only
      rw [herr]
      rfl
    · intro u s2 hok
      obtain ⟨t, ht⟩ := updateTodoInStorage_ok id ⟨none, some (!todo.completed)⟩ st.storage
        u s2 hok
      refine ⟨by rw [ht]; rfl, ?_⟩
      unfold toggleTodoComplete
      dsimp only
      rw [hfind]
      dsimp only
      rw [hok]
      rfl

theorem toggle_offline_amended_witness :
    stA.todos.find? (fun t => t.id == some "a") = some itemA ∧
    updateTodoInStorage "a" ⟨none, some (!itemA.completed)⟩ stA.storage = Except.ok (uT, sT) ∧
    (uT.completed = !itemA.completed ∧
     toggleTodoComplete false (Except.error "x") "f" "a" stA =
       { stA with
         todos := stA.todos.map (fun t => if t.id == some "a" then uT else t),
         stats := calculateStats (stA.todos.map (fun t => if t.id == some "a" then uT else t)),
         storage := sT, error := none }) :=
  ⟨by decide, by rfl,
   ((toggle_offline_amended (Except.error "x") "f" "a" stA).2 itemA (by decide)).2 uT sT
     (by rfl)⟩

/-! ### Offline remove (C8) -/

/-- C8: offline, `remove(id)` with an id matching no cached record under
either identifier field fails: the storage delete throws the not-found error,
which the hook surfaces as the advisory delete-failure message, and `items`
(together with `stats` and the cache) is unchanged; when a cached record
matches, the record is removed from the cache (the mirror is overwritten with
the filtered records) and the item is removed from `items`. -/
theorem remove_offline_notfound (r : Except String Unit) (id : String) (st : CoreState)
    (l : List Item) (harr : getTodosFromStorage st.storage.todosCell = JsonVal.arr l) :
    ((∀ t ∈ l, t.id ≠ some id ∧ t._id ≠ some id) →
      deleteTodoFromStorage id st.storage = .error "Todo not found in localStorage" ∧
      deleteTodo false r id st =
        { st with error := some "Failed to delete todo. Please try again." }) ∧
    ((∃ t ∈ l, t.id = some id ∨ t._id = some id) →
      deleteTodo false r id st =
        { st with
          todos := st.todos.filter (fun t => !(t.id == some id)),
          stats := calculateStats (st.todos.filter (fun t => !(t.id == some id))),
          storage := saveStatsToStorage
            (calculateStats (l.filter (fun t => !(t.id == some id) && !(t._id == some id))))
            (saveTodosToStorage
              (l.filter (fun t => !(t.id == some id) && !(t._id == some id))) st.storage),
          error := none }) := by
  refine ⟨?_, ?_⟩
  · intro hnone
    have hfe : l.filter (fun t => !(t.id == some id) && !(t._id == some id)) = l := by
      apply List.filter_eq_self.mpr
      intro a ha
      obtain ⟨ha1, ha2⟩ := hnone a ha
      simp [ha1, ha2]
    have hdel : deleteTodoFromStorage id st.storage =
        .error "Todo not found in localStorage" := by
      unfold deleteTodoFromStorage
      rw [harr]
      dsimp only
      rw [hfe]
      simp
    refine ⟨hdel, ?_⟩
    unfold deleteTodo
    dsimp only
    rw [hdel]
    rfl
  · intro hex
    have hne : (l.filter (fun t => !(t.id == some id) && !(t._id == some id))).length
        ≠ l.length := by
      intro he
      have hall := List.filter_length_eq_length.mp he
      obtain ⟨t, htmem, hm⟩ := hex
      have hp := hall t htmem
      cases hm with
      | inl hm1 => simp [hm1] at hp
      | inr hm2 => simp [hm2] at hp
    have hlen : ((l.filter (fun t => !(t.id == some id) && !(t._id == some id))).length
        != l.length) = true := bne_iff_ne.mpr hne
    have hdel : deleteTodoFromStorage id st.storage =
        .ok (saveStatsToStorage
              (calculateStats (l.filter (fun t => !(t.id == some id) && !(t._id == some id))))
              (saveTodosToStorage
                (l.filter (fun t => !(t.id == some id) && !(t._id == some id))) st.storage)) := by
      unfold deleteTodoFromStorage
      rw [harr]
      dsimp only
      rw [hlen]
      rfl
    unfold deleteTodo
    dsimp only
    rw [hdel]
    rfl

theorem remove_offline_notfound_witness :
    getTodosFromStorage stA.storage.todosCell = JsonVal.arr [itemA] ∧
    (∃ t ∈ [itemA], t.id = some "a" ∨ t._id = some "a") ∧
    deleteTodo false (Except.error "x") "a" stA =
      { stA with
        todos := stA.todos.filter (fun t => !(t.id == some "a")),
        stats := calculateStats (stA.todos.filter (fun t => !(t.id == some "a"))),
        storage := saveStatsToStorage
          (calculateStats ([itemA].filter (fun t => !(t.id == some "a") && !(t._id == some "a"))))
          (saveTodosToStorage
            ([itemA].filter (fun t => !(t.id == some "a") && !(t._id == some "a"))) stA.storage),
        error := none } :=
  ⟨by decide, ⟨itemA, by decide, Or.inl (by decide)⟩,
   (remove_offline_notfound (Except.error "x") "a" stA [itemA] (by decide)).2
     ⟨itemA, by decide, Or.inl (by decide)⟩⟩

/-! ### Idempotence of removeCompleted (C9) -/

/-- C9: `removeCompleted()` is idempotent: provided the remote bulk delete
succeeds when online (offline makes no remote call), after one call `items`
contains zero completed entries (the retained set is the filter of `items` by
not-completed, with `stats` recomputed from it), and a second consecutive
call returns the state of the first call unchanged: `items`, `stats`, the
error field and the cache mirror are all equal. -/
theorem removeCompleted_idempotent (online : Bool) (r1 r2 : Except String Nat)
    (st : CoreState)
    (h1 : online = true → ∃ n, r1 = Except.ok n)
    (h2 : online = true → ∃ n, r2 = Except.ok n) :
    (deleteCompletedTodos online r1 st).todos.filter (fun t => t.completed) = [] ∧
    (deleteCompletedTodos online r1 st).todos =
      st.todos.filter (fun t => !t.completed) ∧
    deleteCompletedTodos online r2 (deleteCompletedTodos online r1 st) =
      deleteCompletedTodos online r1 st := by
  cases online with
  | false =>
    refine ⟨?_, ?_, ?_⟩
    · unfold deleteCompletedTodos
      dsimp only
      simp [List.filter_filter]
    · unfold deleteCompletedTodos
      dsimp only
      rfl
    · unfold deleteCompletedTodos
      dsimp only
      simp [List.filter_filter, saveStatsToStorage, saveTodosToStorage]
  | true =>
    obtain ⟨n1, hr1⟩ := h1 rfl
    obtain ⟨n2, hr2⟩ := h2 rfl
    subst hr1
    subst hr2
    refine ⟨?_, ?_, ?_⟩
    · unfold deleteCompletedTodos
      dsimp only
      simp [List.filter_filter, setTodosRecompute]
    · unfold deleteCompletedTodos
      dsimp only
      rfl
    · unfold deleteCompletedTodos
      dsimp only
      simp [List.filter_filter, saveStatsToStorage, saveTodosToStorage, setTodosRecompute]

theorem removeCompleted_idempotent_witness :
    ((true : Bool) = true → ∃ n, (Except.ok 2 : Except String Nat) = Except.ok n) ∧
    ((true : Bool) = true → ∃ n, (Except.ok 5 : Except String Nat) = Except.ok n) ∧
    ((deleteCompletedTodos true (Except.ok 2) stA).todos.filter (fun t => t.completed) = [] ∧
     (deleteCompletedTodos true (Except.ok 2) stA).todos =
       stA.todos.filter (fun t => !t.completed) ∧
     deleteCompletedTodos true (Except.ok 5) (deleteCompletedTodos true (Except.ok 2) stA) =
       deleteCompletedTodos true (Except.ok 2) stA) :=
  ⟨fun _ => ⟨2, rfl⟩, fun _ => ⟨5, rfl⟩,
   removeCompleted_idempotent true (Except.ok 2) (Except.ok 5) stA
     (fun _ => ⟨2, rfl⟩) (fun _ => ⟨5, rfl⟩)⟩

/-! ### Totality of the cache reads (C10) -/

/-- C10 counterexample: a stored value that is valid JSON but not an array is
returned as-is by `getTodosFromStorage`: for cache content parsing to the
non-array JSON value tagged "5", the result is that value, not a list; the
same holds for a non-record stats value and `getStatsFromStorage`. -/
theorem storage_read_nonlist_counterexample :
    getTodosFromStorage (RawCell.val (JsonVal.nonArray "5")) = JsonVal.nonArray "5" ∧
    isArr (getTodosFromStorage (RawCell.val (JsonVal.nonArray "5"))) = false ∧
    isStatRec (getStatsFromStorage (RawCell.val (JsonStats.nonStats "5"))) = false :=
  ⟨by decide, by decide, by decide⟩

/-- C10 amended: the cache reads never throw and return the default on
failure: `getTodosFromStorage` returns `[]` when the key is missing or the
stored string fails to parse, and `getStatsFromStorage` likewise returns the
zero statistics record; a successfully parsed stored value is returned
as-is, so the result is a list (resp. a statistics record) exactly when the
stored JSON was one. -/
theorem storage_reads_total_amended (cv : RawCell JsonVal) (cs : RawCell JsonStats) :
    getTodosFromStorage RawCell.missing = JsonVal.arr [] ∧
    getStatsFromStorage RawCell.missing = JsonStats.stat ⟨0, 0, 0⟩ ∧
    (∀ e, parseTodosCell cv = .error e → getTodosFromStorage cv = JsonVal.arr []) ∧
    (∀ e, parseStatsCell cs = .error e → getStatsFromStorage cs = JsonStats.stat ⟨0, 0, 0⟩) ∧
    (∀ v, cv = RawCell.val v → getTodosFromStorage cv = v) ∧
    (∀ v, cs = RawCell.val v → getStatsFromStorage cs = v) := by
  refine ⟨rfl, rfl, ?_, ?_, ?_, ?_⟩
  · intro e he
    cases cv with
    | missing => simp [parseTodosCell] at he
    | corrupt => rfl
    | val v => simp [parseTodosCell] at he
  · intro e he
    cases cs with
    | missing => simp [parseStatsCell] at he
    | corrupt => rfl
    | val v => simp [parseStatsCell] at he
  · intro v hv
    rw [hv]
    rfl
  · intro v hv
    rw [hv]
    rfl

theorem storage_reads_total_amended_witness :
    parseTodosCell RawCell.corrupt =
      Except.error "SyntaxError: Unexpected token in JSON" ∧
    getTodosFromStorage RawCell.corrupt = JsonVal.arr [] :=
  ⟨by rfl,
   (storage_reads_total_amended RawCell.corrupt RawCell.corrupt).2.2.1
     "SyntaxError: Unexpected token in JSON" (by rfl)⟩

end TodoApp
